import Mathlib

/-!
Verification of the homeschool application excerpt: the students schema
migration (`homeschool/students/migrations/0001_initial.py`), the teacher
checklist views (`homeschool/teachers/views.py`), and the behaviour the
students view tests pin down.  Code of the repository that is not part of
the excerpt (the students views, the `denied` authorization decorator, the
external schools/courses models) is modelled from the specification; such
definitions carry a doc comment starting with `Modelled from the spec:`.
-/

namespace Homeschool

/-! ## Calendar dates, as `datetime.date` accepts them -/

/-- A calendar date, mirroring Python `datetime.date`. -/
structure Date where
  year : Nat
  month : Nat
  day : Nat
  deriving DecidableEq, Repr

/-- Gregorian leap-year rule used by `datetime.date`. -/
def isLeapYear (y : Nat) : Bool :=
  (y % 4 == 0 && y % 100 != 0) || y % 400 == 0

/-- Number of days of a month, as `datetime.date` validates it. -/
def daysInMonth (y m : Nat) : Nat :=
  if m == 2 then (if isLeapYear y then 29 else 28)
  else if m == 4 || m == 6 || m == 9 || m == 11 then 30
  else 31

/-- Validity of a (year, month, day) triple for `datetime.date`:
`MINYEAR = 1`, `MAXYEAR = 9999`, month in 1..12, day in 1..days of month. -/
def validDate (y m d : Nat) : Bool :=
  1 ≤ y && y ≤ 9999 && 1 ≤ m && m ≤ 12 && 1 ≤ d && d ≤ daysInMonth y m

/-- `datetime.date(y, m, d)`: a date when the triple is valid, and a raised
`ValueError` (here `none`) otherwise. -/
def mkDate (y m d : Nat) : Option Date :=
  if validDate y m d then some ⟨y, m, d⟩ else none

/-- Total order code of a date, for range comparisons. -/
def Date.code (d : Date) : Nat :=
  d.year * 10000 + d.month * 100 + d.day

/-! ## The initial students migration, as declared data -/

/-- The kinds of fields the migration `0001_initial` declares. -/
inductive FieldKind where
  | autoPK
  | char (maxLength : Nat)
  | date (dbIndex : Bool)
  | fkCascade (target : String)
  deriving DecidableEq, Repr

/-- A `CreateModel` operation: model name, ordered fields, and uniqueness
constraints over field tuples (`unique_together` / `UniqueConstraint`). -/
structure ModelDef where
  name : String
  fields : List (String × FieldKind)
  uniqueTogether : List (List String)
  deriving DecidableEq, Repr

/-- The `Student` model of migration 0001. -/
def studentModel : ModelDef :=
  { name := "Student"
    fields := [("id", .autoPK),
               ("first_name", .char 64),
               ("last_name", .char 64),
               ("school", .fkCascade "schools.School")]
    uniqueTogether := [] }

/-- The `Enrollment` model of migration 0001. -/
def enrollmentModel : ModelDef :=
  { name := "Enrollment"
    fields := [("id", .autoPK),
               ("grade_level", .fkCascade "schools.GradeLevel"),
               ("student", .fkCascade "students.Student")]
    uniqueTogether := [] }

/-- The `Coursework` model of migration 0001. -/
def courseworkModel : ModelDef :=
  { name := "Coursework"
    fields := [("id", .autoPK),
               ("completed_date", .date true),
               ("course_task", .fkCascade "courses.CourseTask"),
               ("student", .fkCascade "students.Student")]
    uniqueTogether := [] }

/-- The operations of `students/migrations/0001_initial.py`. -/
def migration0001 : List ModelDef :=
  [studentModel, enrollmentModel, courseworkModel]

/-! ## Admissible table states under the declared constraints -/

/-- A row of a table: field name to integer value. -/
abbrev Row := List (String × Nat)

/-- The value a row assigns to a field. -/
def rowVal (r : Row) (f : String) : Option Nat :=
  (r.find? (fun p => p.1 == f)).map (fun p => p.2)

/-- A declared uniqueness constraint holds for a list of rows when no two
rows agree on every constrained column. -/
def uniqueTogetherHolds (cols : List String) (rows : List Row) : Prop :=
  (rows.map (fun r => cols.map (rowVal r))).Nodup

/-- A table state is admissible for a model when primary keys are distinct
and every declared uniqueness constraint holds.  The migration declares no
other row-level constraints. -/
def admissible (m : ModelDef) (rows : List Row) : Prop :=
  (rows.map (fun r => rowVal r "id")).Nodup ∧
  ∀ cols ∈ m.uniqueTogether, uniqueTogetherHolds cols rows

/-- Two enrollment rows with the same student and the same grade level but
distinct primary keys. -/
def enrollmentDupA : Row := [("id", 1), ("grade_level", 7), ("student", 3)]

/-- Second enrollment row duplicating student and grade level of
`enrollmentDupA`. -/
def enrollmentDupB : Row := [("id", 2), ("grade_level", 7), ("student", 3)]

/-! ## Entities -/

/-- A `Student` row as migration 0001 declares it: auto primary key, two
64-char name fields, and a cascading foreign key to `schools.School`. -/
structure Student where
  id : Nat
  first_name : String
  last_name : String
  school : Nat
  deriving DecidableEq, Repr

/-- An `Enrollment` row as migration 0001 declares it: cascading foreign
keys to `schools.GradeLevel` and `students.Student`. -/
structure Enrollment where
  id : Nat
  grade_level : Nat
  student : Nat
  deriving DecidableEq, Repr

/-- A `Coursework` row as migration 0001 declares it: indexed completed
date and cascading foreign keys to `courses.CourseTask` and
`students.Student`. -/
structure Coursework where
  id : Nat
  completed_date : Nat
  course_task : Nat
  student : Nat
  deriving DecidableEq, Repr

/-- Modelled from the spec: the external `schools.SchoolYear` model — a
school year belongs to a School and spans a date range
(`SchoolYear.get_year_for` selects the year covering a date). -/
structure SchoolYear where
  id : Nat
  school : Nat
  start_date : Date
  end_date : Date
  deriving DecidableEq, Repr

/-- Modelled from the spec: the external `schools.GradeLevel` model — a
grade within a school year that a student enrolls into. -/
structure GradeLevel where
  id : Nat
  school_year : Nat
  deriving DecidableEq, Repr

/-- Modelled from the spec: the external `courses.Course` model, collapsed
to its transitive School owner (a course reaches its school through grade
levels and the school year; only the owner matters to the shown views). -/
structure Course where
  id : Nat
  school : Nat
  deriving DecidableEq, Repr

/-- Modelled from the spec: the external `courses.CourseTask` model — a
unit of work within a course, gradable or not. -/
structure CourseTask where
  id : Nat
  course : Nat
  deriving DecidableEq, Repr

/-- Modelled from the spec: the external `courses.GradedWork` model —
gradable work attached to a course task. -/
structure GradedWork where
  id : Nat
  course_task : Nat
  deriving DecidableEq, Repr

/-- Modelled from the spec: the external `students.Grade` model — a score a
student received on graded work. -/
structure Grade where
  id : Nat
  student : Nat
  graded_work : Nat
  score : Nat
  deriving DecidableEq, Repr

/-- Modelled from the spec: the external `teachers.Checklist` model —
scoped to a SchoolYear, it marks courses excluded from the teacher
checklist view. -/
structure Checklist where
  id : Nat
  school_year : Nat
  excluded_courses : List Nat
  deriving DecidableEq, Repr

/-- An authenticated account: the owning user of one School.
`localToday` stands for `request.user.get_local_today()`. -/
structure User where
  id : Nat
  school : Nat
  localToday : Date
  deriving DecidableEq, Repr

/-- The relational store the views query. -/
structure Db where
  students : List Student
  schoolYears : List SchoolYear
  gradeLevels : List GradeLevel
  enrollments : List Enrollment
  courses : List Course
  courseTasks : List CourseTask
  gradedWorks : List GradedWork
  courseworks : List Coursework
  grades : List Grade
  checklists : List Checklist
  deriving DecidableEq, Repr

/-! ## Ownership: the transitive School of an entity -/

/-- School of a grade level: through its school year. -/
def gradeLevelSchool (db : Db) (glId : Nat) : Option Nat :=
  match db.gradeLevels.find? (fun g => g.id == glId) with
  | none => none
  | some gl => (db.schoolYears.find? (fun sy => sy.id == gl.school_year)).map
      (fun sy => sy.school)

/-- School of a course task: through its course. -/
def courseTaskSchool (db : Db) (taskId : Nat) : Option Nat :=
  match db.courseTasks.find? (fun t => t.id == taskId) with
  | none => none
  | some t => (db.courses.find? (fun c => c.id == t.course)).map
      (fun c => c.school)

/-- School of graded work: through its course task and course. -/
def gradedWorkSchool (db : Db) (gw : GradedWork) : Option Nat :=
  courseTaskSchool db gw.course_task

/-- School owning a coursework row: the school of its student. -/
def courseworkSchool (db : Db) (cw : Coursework) : Option Nat :=
  (db.students.find? (fun s => s.id == cw.student)).map (fun s => s.school)

/-- Modelled from the spec: `SchoolYear.get_year_for(user, day)` of the
external schools module — the user's school year whose range covers the
given day. -/
def getYearFor (user : User) (day : Date) (db : Db) : Option SchoolYear :=
  db.schoolYears.find? (fun sy =>
    sy.school == user.school
    && Nat.ble sy.start_date.code day.code
    && Nat.ble day.code sy.end_date.code)

/-! ## HTTP responses and the authentication gate -/

/-- A view outcome: a rendered template with its context, a redirect
carrying flash messages, or `HttpResponseNotFound`. -/
inductive Http (γ : Type) where
  | render (template : String) (ctx : γ)
  | redirect (url : String) (messages : List String)
  | notFound
  deriving DecidableEq, Repr

/-- HTTP status code of a response. -/
def Http.status {γ : Type} : Http γ → Nat
  | .render _ _ => 200
  | .redirect _ _ => 302
  | .notFound => 404

/-- Outcome of dispatching a request through the authentication layer. -/
inductive AuthResult (α : Type) where
  | loginRedirect
  | ok (response : α)
  deriving DecidableEq, Repr

/-- Modelled from the spec: the external `denied` `@authorize` decorator —
authentication is required on every view, and an unauthenticated request is
redirected to the login page without reaching the view body. -/
def requireAuth {α : Type} (authenticated : Bool) (body : Unit → α) :
    AuthResult α :=
  if authenticated then .ok (body ()) else .loginRedirect

/-- Request method. -/
inductive Method where
  | get
  | post
  deriving DecidableEq, Repr

/-! ## Route URLs -/

/-- URL of `students:index`. -/
def studentsIndexUrl : String := "/students/"

/-- URL of `schools:school_year_detail` for a school year. -/
def schoolYearDetailUrl (syId : Nat) : String :=
  "/schools/school-year/" ++ toString syId ++ "/"

/-- URL of `schools:grade_level_create` for a school year. -/
def gradeLevelCreateUrl (syId : Nat) : String :=
  "/schools/school-year/" ++ toString syId ++ "/grade-level/create/"

/-- URL of `teachers:checklist` for a date. -/
def checklistUrl (y m d : Nat) : String :=
  "/teachers/checklist/" ++ toString y ++ "/" ++ toString m ++ "/"
    ++ toString d ++ "/"

/-! ## Teacher checklist views (`homeschool/teachers/views.py`) -/

/-- `Week(week_day)` of the external `homeschool.core.schedules` module,
kept opaque: the week selected by a date. -/
structure Week where
  day : Date
  deriving DecidableEq, Repr

/-- One student's schedule for the week: the courses shown for them.
The forecast computation producing schedules is external
(`school_year.get_schedules`), so views take it as a parameter. -/
structure Schedule where
  student : Nat
  courses : List Nat
  deriving DecidableEq, Repr

/-- Modelled from the spec: `Checklist.for_school_year` of the external
teachers models — the courses the school year's checklist marks excluded. -/
def excludedCourses (db : Db) (syId : Nat) : List Nat :=
  match db.checklists.find? (fun c => c.school_year == syId) with
  | some c => c.excluded_courses
  | none => []

/-- Modelled from the spec: `Checklist.filter_schedules` of the external
teachers models — drops the excluded courses from each schedule. -/
def filterSchedules (excluded : List Nat) (schedules : List Schedule) :
    List Schedule :=
  schedules.map (fun sch =>
    { sch with courses := sch.courses.filter (fun c => !(excluded.contains c)) })

/-- Context rendered by `teachers:checklist`. -/
structure ChecklistContext where
  schedules : List Schedule
  week : Week
  deriving DecidableEq, Repr

/-- Context rendered by `teachers:edit_checklist`. -/
structure EditChecklistContext where
  checklist : List Nat
  schedules : List Schedule
  week : Week
  deriving DecidableEq, Repr

/-- `checklist` of `homeschool/teachers/views.py`: builds the week from the
URL date (raising `ValueError` on an invalid date), looks up the user's
school year for that day, and renders the schedules filtered through
`Checklist.filter_schedules` — or an empty list when no school year covers
the day. -/
def checklist (getSchedules : SchoolYear → Date → Week → List Schedule)
    (user : User) (year month day : Nat) (db : Db) :
    Except String (Http ChecklistContext) :=
  match mkDate year month day with
  | none => .error "ValueError: day is out of range for month"
  | some week_day =>
    let today := user.localToday
    let week : Week := ⟨week_day⟩
    let schedules :=
      match getYearFor user week_day db with
      | some school_year =>
          filterSchedules (excludedCourses db school_year.id)
            (getSchedules school_year today week)
      | none => []
    .ok (.render "teachers/checklist.html" ⟨schedules, week⟩)

/-- `edit_checklist` of `homeschool/teachers/views.py`: 404 when no school
year of the user covers the requested day; on a valid POST saves and
redirects to `teachers:checklist`; otherwise renders the unfiltered
schedules together with the school year's checklist.  Validity of the
`ChecklistForm` is abstracted into the `formValid` flag (the form module is
external). -/
def edit_checklist (getSchedules : SchoolYear → Date → Week → List Schedule)
    (user : User) (year month day : Nat) (method : Method) (formValid : Bool)
    (db : Db) : Except String (Http EditChecklistContext) :=
  match mkDate year month day with
  | none => .error "ValueError: day is out of range for month"
  | some week_day =>
    let today := user.localToday
    let week : Week := ⟨week_day⟩
    match getYearFor user week_day db with
    | none => .ok .notFound
    | some school_year =>
      if method == Method.post && formValid then
        .ok (.redirect (checklistUrl year month day) [])
      else
        .ok (.render "teachers/edit_checklist.html"
          ⟨excludedCourses db school_year.id,
           getSchedules school_year today week, week⟩)

/-! ## Students views

The students view module is not part of the excerpt — only its tests are.
Each view below is modelled from the spec: every query filters by the
requesting user's school (tenant isolation), unauthorized or nonexistent
resources give 404, invalid workflow states give redirects with flash
messages, and invalid form submissions re-render with form errors. -/

/-- One roster line of `students:index`. -/
structure RosterEntry where
  student : Student
  enrollment : Option Enrollment
  deriving DecidableEq, Repr

/-- Context rendered by `students:index`. -/
structure StudentsIndexContext where
  school_year : Option SchoolYear
  roster : List RosterEntry
  deriving DecidableEq, Repr

/-- Modelled from the spec: the current school year shown by
`students:index` — a school year of the requesting user's school. -/
def currentSchoolYear (user : User) (db : Db) : Option SchoolYear :=
  db.schoolYears.find? (fun sy => sy.school == user.school)

/-- Modelled from the spec: the enrollment shown next to a student on the
roster — an enrollment of that student into a grade level owned by the
user's school, if any. -/
def enrollmentFor (user : User) (db : Db) (s : Student) : Option Enrollment :=
  db.enrollments.find? (fun e =>
    e.student == s.id && gradeLevelSchool db e.grade_level == some user.school)

/-- Modelled from the spec: the `students:index` view body — renders the
user's students, each with their enrollment in the current school year. -/
def students_index (user : User) (db : Db) : Http StudentsIndexContext :=
  .render "students/index.html"
    { school_year := currentSchoolYear user db
      roster := (db.students.filter (fun s => s.school == user.school)).map
        (fun s => ⟨s, enrollmentFor user db s⟩) }

/-- Context rendered by `students:create`. -/
structure CreateContext where
  create : Bool
  deriving DecidableEq, Repr

/-- Modelled from the spec: the `students:create` view body — GET renders
the creation page, POST stores the student and redirects to the index. -/
def students_create (method : Method) : Http CreateContext :=
  match method with
  | .get => .render "students/create.html" ⟨true⟩
  | .post => .redirect studentsIndexUrl []

/-- Find a student of the requesting user's school by id; students of
other schools are invisible (modelled from the spec's tenant isolation). -/
def findOwnedStudent (user : User) (db : Db) (studentId : Nat) :
    Option Student :=
  db.students.find? (fun s => s.id == studentId && s.school == user.school)

/-- Find a course of the requesting user's school by id. -/
def findOwnedCourse (user : User) (db : Db) (courseId : Nat) : Option Course :=
  db.courses.find? (fun c => c.id == courseId && c.school == user.school)

/-- Find a course task of the requesting user's school by id. -/
def findOwnedCourseTask (user : User) (db : Db) (taskId : Nat) :
    Option CourseTask :=
  db.courseTasks.find? (fun t =>
    t.id == taskId && courseTaskSchool db t.id == some user.school)

/-- Find a school year of the requesting user's school by id. -/
def findOwnedSchoolYear (user : User) (db : Db) (syId : Nat) :
    Option SchoolYear :=
  db.schoolYears.find? (fun sy => sy.id == syId && sy.school == user.school)

/-- Context rendered by `students:course`. -/
structure CourseContext where
  student : Student
  course : Course
  deriving DecidableEq, Repr

/-- Modelled from the spec: the `students:course` view body — 404 unless
both the student and the course belong to the user's school. -/
def student_course (user : User) (db : Db) (studentId courseId : Nat) :
    Http CourseContext :=
  match findOwnedStudent user db studentId with
  | none => .notFound
  | some s =>
    match findOwnedCourse user db courseId with
    | none => .notFound
    | some c => .render "students/course.html" ⟨s, c⟩

/-- Context rendered by `students:coursework` and `students:grade_task`. -/
structure CourseTaskContext where
  student : Student
  course_task : CourseTask
  deriving DecidableEq, Repr

/-- Modelled from the spec: the `students:coursework` view body — 404
unless both the student and the course task belong to the user's school. -/
def coursework_view (user : User) (db : Db) (studentId taskId : Nat) :
    Http CourseTaskContext :=
  match findOwnedStudent user db studentId with
  | none => .notFound
  | some s =>
    match findOwnedCourseTask user db taskId with
    | none => .notFound
    | some t => .render "students/coursework_form.html" ⟨s, t⟩

/-- Modelled from the spec: the `students:grade_task` view body — like
`students:coursework`, and additionally 404 when the task has no graded
work. -/
def grade_task_view (user : User) (db : Db) (studentId taskId : Nat) :
    Http CourseTaskContext :=
  match findOwnedStudent user db studentId with
  | none => .notFound
  | some s =>
    match findOwnedCourseTask user db taskId with
    | none => .notFound
    | some t =>
      if db.gradedWorks.any (fun gw => gw.course_task == t.id) then
        .render "students/grade_form.html" ⟨s, t⟩
      else
        .notFound

/-- One entry of the grading page: a student with their ungraded work. -/
structure WorkToGradeEntry where
  student : Student
  graded_work : List GradedWork
  deriving DecidableEq, Repr

/-- Context rendered by `students:grade`. -/
structure GradeContext where
  work_to_grade : List WorkToGradeEntry
  has_work_to_grade : Bool
  deriving DecidableEq, Repr

/-- Modelled from the spec: the graded work awaiting a grade for one
student — graded work of the user's school with completed coursework by
the student and no grade yet. -/
def gradedWorkFor (user : User) (db : Db) (s : Student) : List GradedWork :=
  db.gradedWorks.filter (fun gw =>
    gradedWorkSchool db gw == some user.school
    && db.courseworks.any (fun cw =>
        cw.student == s.id && cw.course_task == gw.course_task)
    && !(db.grades.any (fun g =>
        g.student == s.id && g.graded_work == gw.id)))

/-- Modelled from the spec: the `students:grade` view body — lists the
user's students with their ungraded work. -/
def grade_view (user : User) (db : Db) : Http GradeContext :=
  let entries := (db.students.filter (fun s => s.school == user.school)).map
    (fun s => ⟨s, gradedWorkFor user db s⟩)
  .render "students/grade.html"
    ⟨entries, entries.any (fun e => !e.graded_work.isEmpty)⟩

/-- Context rendered by `students:enrollment_create`. -/
structure EnrollmentCreateContext where
  grade_levels : List GradeLevel
  students : List Student
  deriving DecidableEq, Repr

/-- Modelled from the spec: a student is enrolled in the school year when
some enrollment links them to one of its grade levels. -/
def enrolledInYear (db : Db) (gradeLevels : List GradeLevel) (s : Student) :
    Bool :=
  db.enrollments.any (fun e =>
    e.student == s.id && gradeLevels.any (fun g => g.id == e.grade_level))

/-- Modelled from the spec: the `students:enrollment_create` GET view body.
404 for a school year the user does not own; then the invalid workflow
states each redirect with a flash message — no grade levels, no students,
or every student already enrolled; otherwise the enrollable students and
the year's grade levels are rendered. -/
def enrollment_create (user : User) (db : Db) (schoolYearId : Nat) :
    Http EnrollmentCreateContext :=
  match findOwnedSchoolYear user db schoolYearId with
  | none => .notFound
  | some sy =>
    let grade_levels := db.gradeLevels.filter (fun g => g.school_year == sy.id)
    if grade_levels.isEmpty then
      .redirect (gradeLevelCreateUrl sy.id)
        ["You need to create a grade level for a student to enroll in."]
    else
      let students := db.students.filter (fun s => s.school == user.school)
      if students.isEmpty then
        .redirect studentsIndexUrl ["You need to add a student to enroll."]
      else
        let enrollable :=
          students.filter (fun s => !(enrolledInYear db grade_levels s))
        if enrollable.isEmpty then
          .redirect (schoolYearDetailUrl sy.id)
            ["All students are enrolled in the school year."]
        else
          .render "students/enrollment_form.html" ⟨grade_levels, enrollable⟩

/-- The submitted data of an enrollment form. -/
structure EnrollmentForm where
  student : Nat
  grade_level : Nat
  deriving DecidableEq, Repr

/-- Modelled from the spec: `EnrollmentForm` validation — enrolling a
student of another school or into a grade level of another school is a
form-level error rendered back to the user. -/
def enrollmentFormErrors (user : User) (db : Db) (form : EnrollmentForm) :
    List String :=
  (if (db.students.find? (fun s => s.id == form.student)).map
        (fun s => s.school) == some user.school
   then [] else ["You may not enroll that student."])
  ++ (if gradeLevelSchool db form.grade_level == some user.school
      then [] else ["You may not enroll to that grade level."])

/-- Context rendered by `students:student_enrollment_create`. -/
structure StudentEnrollmentContext where
  student : Student
  school_year : SchoolYear
  form_errors : List String
  deriving DecidableEq, Repr

/-- Modelled from the spec: the `students:student_enrollment_create` POST
view body — 404 for a student or school year the user does not own; a
valid submission saves and redirects; an invalid one re-renders the page
with the form errors. -/
def student_enrollment_create (user : User) (db : Db)
    (studentId schoolYearId : Nat) (form : EnrollmentForm) :
    Http StudentEnrollmentContext :=
  match findOwnedStudent user db studentId with
  | none => .notFound
  | some s =>
    match findOwnedSchoolYear user db schoolYearId with
    | none => .notFound
    | some sy =>
      let errs := enrollmentFormErrors user db form
      if errs.isEmpty then
        .redirect (schoolYearDetailUrl sy.id) []
      else
        .render "students/enrollment_form.html" ⟨s, sy, errs⟩

/-! ## Dispatch: every route behind the authentication gate -/

/-- `students:index` behind the authentication gate. -/
def handle_students_index (authed : Bool) (user : User) (db : Db) :
    AuthResult (Http StudentsIndexContext) :=
  requireAuth authed (fun _ => students_index user db)

/-- `students:create` behind the authentication gate. -/
def handle_students_create (authed : Bool) (method : Method) :
    AuthResult (Http CreateContext) :=
  requireAuth authed (fun _ => students_create method)

/-- `students:course` behind the authentication gate. -/
def handle_student_course (authed : Bool) (user : User) (db : Db)
    (studentId courseId : Nat) : AuthResult (Http CourseContext) :=
  requireAuth authed (fun _ => student_course user db studentId courseId)

/-- `students:coursework` behind the authentication gate. -/
def handle_coursework (authed : Bool) (user : User) (db : Db)
    (studentId taskId : Nat) : AuthResult (Http CourseTaskContext) :=
  requireAuth authed (fun _ => coursework_view user db studentId taskId)

/-- `students:grade_task` behind the authentication gate. -/
def handle_grade_task (authed : Bool) (user : User) (db : Db)
    (studentId taskId : Nat) : AuthResult (Http CourseTaskContext) :=
  requireAuth authed (fun _ => grade_task_view user db studentId taskId)

/-- `students:grade` behind the authentication gate. -/
def handle_grade (authed : Bool) (user : User) (db : Db) :
    AuthResult (Http GradeContext) :=
  requireAuth authed (fun _ => grade_view user db)

/-- `students:enrollment_create` behind the authentication gate. -/
def handle_enrollment_create (authed : Bool) (user : User) (db : Db)
    (schoolYearId : Nat) : AuthResult (Http EnrollmentCreateContext) :=
  requireAuth authed (fun _ => enrollment_create user db schoolYearId)

/-- `teachers:checklist` behind the authentication gate
(`@authorize(any_authorized)` in the source). -/
def handle_checklist (authed : Bool)
    (getSchedules : SchoolYear → Date → Week → List Schedule) (user : User)
    (year month day : Nat) (db : Db) :
    AuthResult (Except String (Http ChecklistContext)) :=
  requireAuth authed (fun _ => checklist getSchedules user year month day db)

/-- `teachers:edit_checklist` behind the authentication gate
(`@authorize(any_authorized)` in the source). -/
def handle_edit_checklist (authed : Bool)
    (getSchedules : SchoolYear → Date → Week → List Schedule) (user : User)
    (year month day : Nat) (method : Method) (formValid : Bool) (db : Db) :
    AuthResult (Except String (Http EditChecklistContext)) :=
  requireAuth authed
    (fun _ => edit_checklist getSchedules user year month day method formValid db)

/-! ## Cascade deletion, as `on_delete=CASCADE` declares it -/

/-- Deleting a Student row: the cascades declared on `Enrollment.student`
and `Coursework.student` delete the dependent rows with it. -/
def deleteStudent (db : Db) (sid : Nat) : Db :=
  { db with
    students := db.students.filter (fun s => s.id != sid)
    enrollments := db.enrollments.filter (fun e => e.student != sid)
    courseworks := db.courseworks.filter (fun c => c.student != sid) }

/-- Deleting a GradeLevel row: the cascade declared on
`Enrollment.grade_level` deletes the dependent enrollments. -/
def deleteGradeLevel (db : Db) (gid : Nat) : Db :=
  { db with
    gradeLevels := db.gradeLevels.filter (fun g => g.id != gid)
    enrollments := db.enrollments.filter (fun e => e.grade_level != gid) }

/-- Deleting a CourseTask row: the cascade declared on
`Coursework.course_task` deletes the dependent coursework. -/
def deleteCourseTask (db : Db) (tid : Nat) : Db :=
  { db with
    courseTasks := db.courseTasks.filter (fun t => t.id != tid)
    courseworks := db.courseworks.filter (fun c => c.course_task != tid) }

/-- Deleting a School row: the cascade declared on `Student.school`
deletes the school's students, and the cascades those student rows carry
in turn remove the enrollments and coursework of the deleted students. -/
def deleteSchool (db : Db) (schoolId : Nat) : Db :=
  { db with
    students := db.students.filter (fun s => s.school != schoolId)
    enrollments := db.enrollments.filter (fun e =>
      !(db.students.any (fun s => s.id == e.student && s.school == schoolId)))
    courseworks := db.courseworks.filter (fun c =>
      !(db.students.any (fun s => s.id == c.student && s.school == schoolId))) }

/-! ## Concrete fixtures used by witness theorems -/

/-- A Monday inside the fixture school years. -/
def dayFeb10 : Date := ⟨2020, 2, 10⟩

/-- The requesting user, owner of school 1. -/
def user1 : User := ⟨1, 1, dayFeb10⟩

/-- A schedule source returning nothing. -/
def gsEmpty : SchoolYear → Date → Week → List Schedule := fun _ _ _ => []

/-- Fixture with cross-school data only: school year 5, grade level 7,
course 20 and its task 30 all belong to school 2; student 1 belongs to the
requesting user's school 1, student 10 to school 2. -/
def dbFix : Db :=
  { students := [⟨1, "Alice", "Ames", 1⟩, ⟨10, "Jane", "Doe", 2⟩]
    schoolYears := [⟨5, 2, ⟨2020, 1, 1⟩, ⟨2020, 12, 31⟩⟩]
    gradeLevels := [⟨7, 5⟩]
    enrollments := []
    courses := [⟨20, 2⟩]
    courseTasks := [⟨30, 20⟩]
    gradedWorks := []
    courseworks := []
    grades := []
    checklists := [] }

/-! ## Claim theorems -/

/-- Claim C3: authentication is required on every route — an
unauthenticated request is answered by the login redirect for every
database state and request argument, and never receives an `ok` response
carrying resource content. -/
theorem claim3_login_required_on_every_view :
    (∀ user db, handle_students_index false user db = .loginRedirect ∧
      ∀ r, handle_students_index false user db ≠ .ok r) ∧
    (∀ method, handle_students_create false method = .loginRedirect ∧
      ∀ r, handle_students_create false method ≠ .ok r) ∧
    (∀ user db sid cid, handle_student_course false user db sid cid = .loginRedirect ∧
      ∀ r, handle_student_course false user db sid cid ≠ .ok r) ∧
    (∀ user db sid tid, handle_coursework false user db sid tid = .loginRedirect ∧
      ∀ r, handle_coursework false user db sid tid ≠ .ok r) ∧
    (∀ user db sid tid, handle_grade_task false user db sid tid = .loginRedirect ∧
      ∀ r, handle_grade_task false user db sid tid ≠ .ok r) ∧
    (∀ user db, handle_grade false user db = .loginRedirect ∧
      ∀ r, handle_grade false user db ≠ .ok r) ∧
    (∀ user db syid, handle_enrollment_create false user db syid = .loginRedirect ∧
      ∀ r, handle_enrollment_create false user db syid ≠ .ok r) ∧
    (∀ gs user y m d db, handle_checklist false gs user y m d db = .loginRedirect ∧
      ∀ r, handle_checklist false gs user y m d db ≠ .ok r) ∧
    (∀ gs user y m d method fv db,
      handle_edit_checklist false gs user y m d method fv db = .loginRedirect ∧
      ∀ r, handle_edit_checklist false gs user y m d method fv db ≠ .ok r) := by
  refine ⟨?_, ?_, ?_, ?_, ?_, ?_, ?_, ?_, ?_⟩ <;>
    { intros
      exact ⟨rfl, fun r h => AuthResult.noConfusion h⟩ }

/-- Claim C6: the Enrollment table of migration 0001 carries no uniqueness
constraint over (student, grade_level): its declared constraint list is
empty, and a state holding two distinct rows with the same student and the
same grade level is admissible. -/
theorem claim6_enrollment_duplicates_admissible :
    enrollmentModel.uniqueTogether = [] ∧
    admissible enrollmentModel [enrollmentDupA, enrollmentDupB] ∧
    rowVal enrollmentDupA "student" = rowVal enrollmentDupB "student" ∧
    rowVal enrollmentDupA "grade_level" = rowVal enrollmentDupB "grade_level" ∧
    enrollmentDupA ≠ enrollmentDupB := by
  refine ⟨rfl, ⟨by decide, ?_⟩, by decide, by decide, by decide⟩
  intro cols h
  simp [enrollmentModel] at h

/-- Claim C7: migration 0001 declares exactly the stated schema — Student
with two 64-char name fields and a cascading FK to schools.School,
Enrollment with cascading FKs to schools.GradeLevel and students.Student,
Coursework with a db-indexed completed_date and cascading FKs to
courses.CourseTask and students.Student — and deleting a referenced parent
row (a School, Student, GradeLevel, or CourseTask) deletes the dependent
rows. -/
theorem claim7_migration_declares_stated_schema :
    migration0001 = [studentModel, enrollmentModel, courseworkModel] ∧
    studentModel.fields =
      [("id", FieldKind.autoPK),
       ("first_name", FieldKind.char 64),
       ("last_name", FieldKind.char 64),
       ("school", FieldKind.fkCascade "schools.School")] ∧
    enrollmentModel.fields =
      [("id", FieldKind.autoPK),
       ("grade_level", FieldKind.fkCascade "schools.GradeLevel"),
       ("student", FieldKind.fkCascade "students.Student")] ∧
    courseworkModel.fields =
      [("id", FieldKind.autoPK),
       ("completed_date", FieldKind.date true),
       ("course_task", FieldKind.fkCascade "courses.CourseTask"),
       ("student", FieldKind.fkCascade "students.Student")] ∧
    (∀ (db : Db) (schoolId : Nat),
      ((deleteSchool db schoolId).students.all
        (fun s => s.school != schoolId)) = true ∧
      ((deleteSchool db schoolId).enrollments.all (fun e =>
        !(db.students.any (fun s =>
          s.id == e.student && s.school == schoolId)))) = true ∧
      ((deleteSchool db schoolId).courseworks.all (fun c =>
        !(db.students.any (fun s =>
          s.id == c.student && s.school == schoolId)))) = true) ∧
    (∀ (db : Db) (sid : Nat),
      ((deleteStudent db sid).students.all (fun s => s.id != sid)) = true ∧
      ((deleteStudent db sid).enrollments.all (fun e => e.student != sid)) = true ∧
      ((deleteStudent db sid).courseworks.all (fun c => c.student != sid)) = true) ∧
    (∀ (db : Db) (gid : Nat),
      ((deleteGradeLevel db gid).enrollments.all
        (fun e => e.grade_level != gid)) = true) ∧
    (∀ (db : Db) (tid : Nat),
      ((deleteCourseTask db tid).courseworks.all
        (fun c => c.course_task != tid)) = true) := by
  refine ⟨rfl, rfl, rfl, rfl, ?_, ?_, ?_, ?_⟩
  · intro db schoolId
    refine ⟨?_, ?_, ?_⟩ <;>
      simp only [deleteSchool, List.all_eq_true] <;>
      exact fun x hx => (List.mem_filter.mp hx).2
  · intro db sid
    refine ⟨?_, ?_, ?_⟩ <;>
      simp only [deleteStudent, List.all_eq_true] <;>
      exact fun x hx => (List.mem_filter.mp hx).2
  · intro db gid
    simp only [deleteGradeLevel, List.all_eq_true]
    exact fun x hx => (List.mem_filter.mp hx).2
  · intro db tid
    simp only [deleteCourseTask, List.all_eq_true]
    exact fun x hx => (List.mem_filter.mp hx).2

/-- Claim C2: a request referencing a resource the user's school does not
own — or one that does not exist — returns 404: a missing owned student or
course task in `students:coursework`, a missing owned school year in
`students:enrollment_create`, and `teachers:edit_checklist` when no school
year of the user covers the requested date. -/
theorem claim2_unowned_resource_returns_404 :
    (∀ user db sid tid, findOwnedStudent user db sid = none →
      coursework_view user db sid tid = .notFound) ∧
    (∀ user db sid tid s, findOwnedStudent user db sid = some s →
      findOwnedCourseTask user db tid = none →
      coursework_view user db sid tid = .notFound) ∧
    (∀ user db syid, findOwnedSchoolYear user db syid = none →
      enrollment_create user db syid = .notFound) ∧
    (∀ gs user y m d db wd method fv, mkDate y m d = some wd →
      getYearFor user wd db = none →
      edit_checklist gs user y m d method fv db = .ok .notFound) := by
  refine ⟨?_, ?_, ?_, ?_⟩
  · intro user db sid tid h
    simp [coursework_view, h]
  · intro user db sid tid s h1 h2
    simp [coursework_view, h1, h2]
  · intro user db syid h
    simp [enrollment_create, h]
  · intro gs user y m d db wd method fv h1 h2
    simp [edit_checklist, h1, h2]

/-- Witness for C2: in the cross-school fixture, the other school's
student, a task of the other school's course, the other school's school
year, and a date covered by no school year of the user all yield 404. -/
theorem claim2_witness :
    coursework_view user1 dbFix 10 30 = .notFound ∧
    coursework_view user1 dbFix 1 30 = .notFound ∧
    enrollment_create user1 dbFix 5 = .notFound ∧
    edit_checklist gsEmpty user1 2020 2 10 Method.get true dbFix =
      .ok .notFound := by
  obtain ⟨h1, h2, h3, h4⟩ := claim2_unowned_resource_returns_404
  exact ⟨h1 user1 dbFix 10 30 (by decide),
         h2 user1 dbFix 1 30 ⟨1, "Alice", "Ames", 1⟩ (by decide) (by decide),
         h3 user1 dbFix 5 (by decide),
         h4 gsEmpty user1 2020 2 10 dbFix dayFeb10 Method.get true
           (by decide) (by decide)⟩

/-- Fixture for C4: the user's school year 5 with no grade levels and no
students. -/
def db4a : Db :=
  { students := []
    schoolYears := [⟨5, 1, ⟨2020, 1, 1⟩, ⟨2020, 12, 31⟩⟩]
    gradeLevels := []
    enrollments := []
    courses := []
    courseTasks := []
    gradedWorks := []
    courseworks := []
    grades := []
    checklists := [] }

/-- Fixture for C4: school year 5 with grade level 7 and no students. -/
def db4b : Db :=
  { db4a with gradeLevels := [⟨7, 5⟩] }

/-- Fixture for C4: school year 5 with grade level 7 and one student who
is already enrolled in it. -/
def db4c : Db :=
  { db4b with
    students := [⟨1, "Alice", "Ames", 1⟩]
    enrollments := [⟨1, 7, 1⟩] }

/-- Claim C4: a GET of `students:enrollment_create` in an invalid workflow
state returns a 302 redirect with the matching flash message — grade-level
creation when the year has no grade levels, the student index when the
user has no students, and the school year detail page when every student
is already enrolled. -/
theorem claim4_enrollment_create_workflow_redirects :
    (∀ user db syid sy, findOwnedSchoolYear user db syid = some sy →
      (db.gradeLevels.filter (fun g => g.school_year == sy.id)).isEmpty = true →
      enrollment_create user db syid =
        .redirect (gradeLevelCreateUrl sy.id)
          ["You need to create a grade level for a student to enroll in."] ∧
      (enrollment_create user db syid).status = 302) ∧
    (∀ user db syid sy, findOwnedSchoolYear user db syid = some sy →
      (db.gradeLevels.filter (fun g => g.school_year == sy.id)).isEmpty = false →
      (db.students.filter (fun s => s.school == user.school)).isEmpty = true →
      enrollment_create user db syid =
        .redirect studentsIndexUrl ["You need to add a student to enroll."] ∧
      (enrollment_create user db syid).status = 302) ∧
    (∀ user db syid sy, findOwnedSchoolYear user db syid = some sy →
      (db.gradeLevels.filter (fun g => g.school_year == sy.id)).isEmpty = false →
      (db.students.filter (fun s => s.school == user.school)).isEmpty = false →
      ((db.students.filter (fun s => s.school == user.school)).filter
        (fun s => !(enrolledInYear db
          (db.gradeLevels.filter (fun g => g.school_year == sy.id)) s))).isEmpty
        = true →
      enrollment_create user db syid =
        .redirect (schoolYearDetailUrl sy.id)
          ["All students are enrolled in the school year."] ∧
      (enrollment_create user db syid).status = 302) := by
  refine ⟨?_, ?_, ?_⟩
  · intro user db syid sy h1 h2
    have e : enrollment_create user db syid =
        .redirect (gradeLevelCreateUrl sy.id)
          ["You need to create a grade level for a student to enroll in."] := by
      simp only [enrollment_create, h1]
      rw [h2]
      rfl
    exact ⟨e, by rw [e]; rfl⟩
  · intro user db syid sy h1 h2 h3
    have e : enrollment_create user db syid =
        .redirect studentsIndexUrl ["You need to add a student to enroll."] := by
      simp only [enrollment_create, h1]
      rw [h2, h3]
      rfl
    exact ⟨e, by rw [e]; rfl⟩
  · intro user db syid sy h1 h2 h3 h4
    have e : enrollment_create user db syid =
        .redirect (schoolYearDetailUrl sy.id)
          ["All students are enrolled in the school year."] := by
      simp only [enrollment_create, h1]
      rw [h2, h3, h4]
      rfl
    exact ⟨e, by rw [e]; rfl⟩

/-- Witness for C4: the three fixture states produce the three redirects
with their messages. -/
theorem claim4_witness :
    enrollment_create user1 db4a 5 =
      .redirect (gradeLevelCreateUrl 5)
        ["You need to create a grade level for a student to enroll in."] ∧
    enrollment_create user1 db4b 5 =
      .redirect studentsIndexUrl ["You need to add a student to enroll."] ∧
    enrollment_create user1 db4c 5 =
      .redirect (schoolYearDetailUrl 5)
        ["All students are enrolled in the school year."] := by
  obtain ⟨h1, h2, h3⟩ := claim4_enrollment_create_workflow_redirects
  exact ⟨(h1 user1 db4a 5 ⟨5, 1, ⟨2020, 1, 1⟩, ⟨2020, 12, 31⟩⟩
            (by decide) (by decide)).1,
         (h2 user1 db4b 5 ⟨5, 1, ⟨2020, 1, 1⟩, ⟨2020, 12, 31⟩⟩
            (by decide) (by decide) (by decide)).1,
         (h3 user1 db4c 5 ⟨5, 1, ⟨2020, 1, 1⟩, ⟨2020, 12, 31⟩⟩
            (by decide) (by decide) (by decide) (by decide)).1⟩

/-- The user's school year in the C5 fixture. -/
def sy5 : SchoolYear := ⟨5, 1, ⟨2020, 1, 1⟩, ⟨2020, 12, 31⟩⟩

/-- Fixture for C5: student 1 and grade level 7 belong to the user's
school 1; student 10 and grade level 8 belong to school 2. -/
def db5 : Db :=
  { students := [⟨1, "Alice", "Ames", 1⟩, ⟨10, "Jane", "Doe", 2⟩]
    schoolYears := [sy5, ⟨6, 2, ⟨2020, 1, 1⟩, ⟨2020, 12, 31⟩⟩]
    gradeLevels := [⟨7, 5⟩, ⟨8, 6⟩]
    enrollments := []
    courses := []
    courseTasks := []
    gradedWorks := []
    courseworks := []
    grades := []
    checklists := [] }

/-- A schedule source used to show contexts verbatim. -/
def gs5 : SchoolYear → Date → Week → List Schedule := fun _ _ _ => [⟨1, [5]⟩]

/-- Counterexample for C5: the claim asserts that an invalid POST to
`teachers:edit_checklist` also re-renders with the submitted form exposed
in the context, but the transcribed view builds its context from
`checklist`, `schedules` and `week` only — the invalid-POST response is
identical to the GET response, so nothing of the submitted form or its
errors reaches the context. -/
theorem claim5_counterexample :
    edit_checklist gs5 user1 2020 2 10 Method.post false db5 =
      edit_checklist gs5 user1 2020 2 10 Method.get false db5 ∧
    edit_checklist gs5 user1 2020 2 10 Method.post false db5 =
      .ok (.render "teachers/edit_checklist.html"
        ⟨[], [⟨1, [5]⟩], ⟨dayFeb10⟩⟩) :=
  ⟨rfl, rfl⟩

/-- Claim C5 (amended): a POST with invalid form data to the student
enrollment view re-renders the page with the submitted form's errors in
the context — enrolling a student of another school or into a grade level
of another school each yields its message; an invalid POST to
`teachers:edit_checklist` re-renders the edit page rather than
redirecting, but its context (checklist, schedules, week) does not carry
the submitted form: it is the same context a GET renders. -/
theorem claim5_amended_invalid_post_handling :
    (∀ user db sid syid form s sy,
      findOwnedStudent user db sid = some s →
      findOwnedSchoolYear user db syid = some sy →
      (db.students.find? (fun st => st.id == form.student)).map
          (fun st => st.school) ≠ some user.school →
      ∃ ctx : StudentEnrollmentContext,
        student_enrollment_create user db sid syid form =
          .render "students/enrollment_form.html" ctx ∧
        "You may not enroll that student." ∈ ctx.form_errors) ∧
    (∀ user db sid syid form s sy,
      findOwnedStudent user db sid = some s →
      findOwnedSchoolYear user db syid = some sy →
      gradeLevelSchool db form.grade_level ≠ some user.school →
      ∃ ctx : StudentEnrollmentContext,
        student_enrollment_create user db sid syid form =
          .render "students/enrollment_form.html" ctx ∧
        "You may not enroll to that grade level." ∈ ctx.form_errors) ∧
    (∀ gs user y m d db wd sy,
      mkDate y m d = some wd →
      getYearFor user wd db = some sy →
      edit_checklist gs user y m d Method.post false db =
        .ok (.render "teachers/edit_checklist.html"
          ⟨excludedCourses db sy.id, gs sy user.localToday ⟨wd⟩, ⟨wd⟩⟩) ∧
      edit_checklist gs user y m d Method.post false db =
        edit_checklist gs user y m d Method.get false db) := by
  refine ⟨?_, ?_, ?_⟩
  · intro user db sid syid form s sy h1 h2 h3
    have hb : ((db.students.find? (fun st => st.id == form.student)).map
        (fun st => st.school) == some user.school) = false :=
      beq_eq_false_iff_ne.mpr h3
    have herr : "You may not enroll that student." ∈
        enrollmentFormErrors user db form := by
      unfold enrollmentFormErrors
      rw [hb]
      simp
    have hne : (enrollmentFormErrors user db form).isEmpty = false := by
      unfold enrollmentFormErrors
      rw [hb]
      simp
    refine ⟨⟨s, sy, enrollmentFormErrors user db form⟩, ?_, herr⟩
    simp only [student_enrollment_create, h1, h2]
    rw [hne]
    rfl
  · intro user db sid syid form s sy h1 h2 h3
    have hb : (gradeLevelSchool db form.grade_level == some user.school)
        = false := beq_eq_false_iff_ne.mpr h3
    have herr : "You may not enroll to that grade level." ∈
        enrollmentFormErrors user db form := by
      unfold enrollmentFormErrors
      rw [hb]
      simp
    have hne : (enrollmentFormErrors user db form).isEmpty = false := by
      unfold enrollmentFormErrors
      rw [hb]
      simp
    refine ⟨⟨s, sy, enrollmentFormErrors user db form⟩, ?_, herr⟩
    simp only [student_enrollment_create, h1, h2]
    rw [hne]
    rfl
  · intro gs user y m d db wd sy h1 h2
    constructor <;> simp [edit_checklist, h1, h2]

/-- Witness for C5: submitting the other school's student, then the other
school's grade level, each re-renders with its error; an invalid POST to
the edit checklist re-renders the edit page with the form-free context a
GET renders. -/
theorem claim5_witness :
    (∃ ctx : StudentEnrollmentContext,
      student_enrollment_create user1 db5 1 5 ⟨10, 7⟩ =
        .render "students/enrollment_form.html" ctx ∧
      "You may not enroll that student." ∈ ctx.form_errors) ∧
    (∃ ctx : StudentEnrollmentContext,
      student_enrollment_create user1 db5 1 5 ⟨1, 8⟩ =
        .render "students/enrollment_form.html" ctx ∧
      "You may not enroll to that grade level." ∈ ctx.form_errors) ∧
    (edit_checklist gs5 user1 2020 2 10 Method.post false db5 =
      .ok (.render "teachers/edit_checklist.html"
        ⟨excludedCourses db5 sy5.id, gs5 sy5 user1.localToday ⟨dayFeb10⟩,
         ⟨dayFeb10⟩⟩) ∧
     edit_checklist gs5 user1 2020 2 10 Method.post false db5 =
      edit_checklist gs5 user1 2020 2 10 Method.get false db5) := by
  obtain ⟨h1, h2, h3⟩ := claim5_amended_invalid_post_handling
  exact ⟨h1 user1 db5 1 5 ⟨10, 7⟩ ⟨1, "Alice", "Ames", 1⟩ sy5
           (by decide) (by decide) (by decide),
         h2 user1 db5 1 5 ⟨1, 8⟩ ⟨1, "Alice", "Ames", 1⟩ sy5
           (by decide) (by decide) (by decide),
         h3 gs5 user1 2020 2 10 db5 dayFeb10 sy5 (by decide) (by decide)⟩

/-- Claim C8: the two teacher views disagree on the missing-school-year
case — for a week date covered by none of the user's school years,
`teachers:checklist` renders the page (status 200) with an empty schedules
list, while `teachers:edit_checklist` answers the same date with 404. -/
theorem claim8_checklist_vs_edit_on_missing_year :
    ∀ gs user y m d db wd, mkDate y m d = some wd →
      getYearFor user wd db = none →
      (checklist gs user y m d db =
        .ok (.render "teachers/checklist.html" ⟨[], ⟨wd⟩⟩) ∧
       (Http.render "teachers/checklist.html"
         (⟨[], ⟨wd⟩⟩ : ChecklistContext)).status = 200) ∧
      (∀ method fv, edit_checklist gs user y m d method fv db =
        .ok .notFound) ∧
      (Http.notFound : Http EditChecklistContext).status = 404 := by
  intro gs user y m d db wd h1 h2
  refine ⟨⟨?_, rfl⟩, ?_, rfl⟩
  · simp [checklist, h1, h2]
  · intro method fv
    simp [edit_checklist, h1, h2]

/-- Witness for C8: in the cross-school fixture no school year of the user
covers 2020-02-10 — the read view renders empty schedules, the edit view
is a 404. -/
theorem claim8_witness :
    checklist gs5 user1 2020 2 10 dbFix =
      .ok (.render "teachers/checklist.html" ⟨[], ⟨dayFeb10⟩⟩) ∧
    edit_checklist gs5 user1 2020 2 10 Method.get true dbFix =
      .ok .notFound := by
  obtain ⟨⟨h1, _⟩, h2, _⟩ :=
    claim8_checklist_vs_edit_on_missing_year gs5 user1 2020 2 10 dbFix
      dayFeb10 (by decide) (by decide)
  exact ⟨h1, h2 Method.get true⟩

/-- Fixture for C9: the user's school year 5 whose checklist excludes
course 5. -/
def db9 : Db :=
  { students := []
    schoolYears := [sy5]
    gradeLevels := []
    enrollments := []
    courses := []
    courseTasks := []
    gradedWorks := []
    courseworks := []
    grades := []
    checklists := [⟨1, 5, [5]⟩] }

/-- Claim C9: checklist exclusions act only in the read view —
`teachers:checklist` renders the schedules passed through
`Checklist.filter_schedules`, `teachers:edit_checklist` renders
`get_schedules` output unfiltered, and on a concrete state an excluded
course appears in the edit view's schedules but not in the read view's. -/
theorem claim9_exclusions_only_filter_read_view :
    (∀ gs user y m d db wd sy, mkDate y m d = some wd →
      getYearFor user wd db = some sy →
      checklist gs user y m d db =
        .ok (.render "teachers/checklist.html"
          ⟨filterSchedules (excludedCourses db sy.id)
            (gs sy user.localToday ⟨wd⟩), ⟨wd⟩⟩)) ∧
    (∀ gs user y m d db wd sy fv, mkDate y m d = some wd →
      getYearFor user wd db = some sy →
      edit_checklist gs user y m d Method.get fv db =
        .ok (.render "teachers/edit_checklist.html"
          ⟨excludedCourses db sy.id, gs sy user.localToday ⟨wd⟩, ⟨wd⟩⟩)) ∧
    (checklist gs5 user1 2020 2 10 db9 =
       .ok (.render "teachers/checklist.html" ⟨[⟨1, []⟩], ⟨dayFeb10⟩⟩) ∧
     edit_checklist gs5 user1 2020 2 10 Method.get false db9 =
       .ok (.render "teachers/edit_checklist.html"
         ⟨[5], [⟨1, [5]⟩], ⟨dayFeb10⟩⟩)) := by
  refine ⟨?_, ?_, rfl, rfl⟩
  · intro gs user y m d db wd sy h1 h2
    simp [checklist, h1, h2]
  · intro gs user y m d db wd sy fv h1 h2
    simp [edit_checklist, h1, h2]

/-- Witness for C9: the two universally quantified parts applied on the
concrete exclusion fixture. -/
theorem claim9_witness :
    checklist gs5 user1 2020 2 10 db9 =
      .ok (.render "teachers/checklist.html"
        ⟨filterSchedules (excludedCourses db9 sy5.id)
          (gs5 sy5 user1.localToday ⟨dayFeb10⟩), ⟨dayFeb10⟩⟩) ∧
    edit_checklist gs5 user1 2020 2 10 Method.get false db9 =
      .ok (.render "teachers/edit_checklist.html"
        ⟨excludedCourses db9 sy5.id, gs5 sy5 user1.localToday ⟨dayFeb10⟩,
         ⟨dayFeb10⟩⟩) := by
  obtain ⟨h1, h2, _⟩ := claim9_exclusions_only_filter_read_view
  exact ⟨h1 gs5 user1 2020 2 10 db9 dayFeb10 sy5 (by decide) (by decide),
         h2 gs5 user1 2020 2 10 db9 dayFeb10 sy5 false (by decide) (by decide)⟩

/-- Claim C10: the teacher views are total exactly over valid calendar
dates — a (year, month, day) triple `datetime.date` accepts always yields
a response, and an invalid triple raises before any response is
produced. -/
theorem claim10_total_only_on_valid_dates :
    ∀ gs user y m d db method fv,
      (validDate y m d = true →
        (∃ r, checklist gs user y m d db = .ok r) ∧
        (∃ r, edit_checklist gs user y m d method fv db = .ok r)) ∧
      (validDate y m d = false →
        checklist gs user y m d db =
          .error "ValueError: day is out of range for month" ∧
        edit_checklist gs user y m d method fv db =
          .error "ValueError: day is out of range for month") := by
  intro gs user y m d db method fv
  constructor
  · intro h
    have hd : mkDate y m d = some ⟨y, m, d⟩ := by simp [mkDate, h]
    constructor
    · simp only [checklist, hd]
      exact ⟨_, rfl⟩
    · simp only [edit_checklist, hd]
      cases hy : getYearFor user ⟨y, m, d⟩ db
      · exact ⟨.notFound, rfl⟩
      · by_cases hp : (method == Method.post && fv) = true
        · rw [hp]
          exact ⟨_, rfl⟩
        · rw [Bool.not_eq_true] at hp
          rw [hp]
          exact ⟨_, rfl⟩
  · intro h
    constructor
    · simp [checklist, mkDate, h]
    · simp [edit_checklist, mkDate, h]

/-- Witness for C10: 2020-02-10 is handled by both views; month 13 and a
32nd day each make the date constructor raise. -/
theorem claim10_witness :
    (∃ r, checklist gsEmpty user1 2020 2 10 dbFix = .ok r) ∧
    (∃ r, edit_checklist gsEmpty user1 2020 2 10 Method.get true dbFix
      = .ok r) ∧
    checklist gsEmpty user1 2020 13 1 dbFix =
      .error "ValueError: day is out of range for month" ∧
    edit_checklist gsEmpty user1 2020 1 32 Method.get true dbFix =
      .error "ValueError: day is out of range for month" := by
  refine ⟨?_, ?_, ?_, ?_⟩
  · exact ((claim10_total_only_on_valid_dates gsEmpty user1 2020 2 10 dbFix
      Method.get true).1 (by decide)).1
  · exact ((claim10_total_only_on_valid_dates gsEmpty user1 2020 2 10 dbFix
      Method.get true).1 (by decide)).2
  · exact ((claim10_total_only_on_valid_dates gsEmpty user1 2020 13 1 dbFix
      Method.get true).2 (by decide)).1
  · exact ((claim10_total_only_on_valid_dates gsEmpty user1 2020 1 32 dbFix
      Method.get true).2 (by decide)).2

/-! ## Helper lemmas for noninterference -/

/-- Inserting an element the predicate rejects anywhere in a list leaves
its filtering unchanged. -/
theorem filter_middle_of_neg {α : Type} (p : α → Bool) (l1 l2 : List α)
    (a : α) (h : p a = false) :
    (l1 ++ a :: l2).filter p = (l1 ++ l2).filter p := by
  simp [List.filter_append, List.filter_cons, h]

/-- Inserting an element the predicate rejects anywhere in a list leaves
`any` unchanged. -/
theorem any_middle_of_neg {α : Type} (p : α → Bool) (l1 l2 : List α)
    (a : α) (h : p a = false) :
    (l1 ++ a :: l2).any p = (l1 ++ l2).any p := by
  simp [List.any_append, List.any_cons, h]

/-- With pairwise-distinct ids (the primary-key constraint), looking a
member up by its id finds exactly it. -/
theorem find_self_of_nodup_ids (l : List Student) (s : Student)
    (hnd : (l.map Student.id).Nodup) (hmem : s ∈ l) :
    l.find? (fun x => x.id == s.id) = some s := by
  induction l with
  | nil => cases hmem
  | cons a tl ih =>
    rw [List.map_cons, List.nodup_cons] at hnd
    rcases List.mem_cons.mp hmem with h | h
    · subst h
      exact List.find?_cons_of_pos _ (by simp)
    · have hne : (a.id == s.id) = false := by
        rw [beq_eq_false_iff_ne]
        intro he
        exact hnd.1 (he ▸ List.mem_map_of_mem Student.id h)
      rw [List.find?_cons_of_neg _ (by simp [hne]), ih hnd.2 h]

/-- Claim C1: tenant isolation (noninterference) — the rendered contexts
of `students:index` (roster) and `students:grade` (work_to_grade) depend
only on entities of the requesting user's school: inserting (equivalently,
by symmetry of equality, removing) a student, graded work, or coursework
owned by a different school anywhere in the store leaves both contexts
unchanged.  The coursework part assumes the primary-key distinctness of
student ids that migration 0001 enforces. -/
theorem claim1_tenant_isolation_noninterference :
    (∀ user db (l1 l2 : List Student) (s0 : Student),
      db.students = l1 ++ l2 → s0.school ≠ user.school →
      students_index user { db with students := l1 ++ s0 :: l2 } =
        students_index user db ∧
      grade_view user { db with students := l1 ++ s0 :: l2 } =
        grade_view user db) ∧
    (∀ user db (l1 l2 : List GradedWork) (gw0 : GradedWork),
      db.gradedWorks = l1 ++ l2 →
      gradedWorkSchool db gw0 ≠ some user.school →
      students_index user { db with gradedWorks := l1 ++ gw0 :: l2 } =
        students_index user db ∧
      grade_view user { db with gradedWorks := l1 ++ gw0 :: l2 } =
        grade_view user db) ∧
    (∀ user db (l1 l2 : List Coursework) (cw0 : Coursework),
      db.courseworks = l1 ++ l2 →
      (db.students.map Student.id).Nodup →
      courseworkSchool db cw0 ≠ some user.school →
      students_index user { db with courseworks := l1 ++ cw0 :: l2 } =
        students_index user db ∧
      grade_view user { db with courseworks := l1 ++ cw0 :: l2 } =
        grade_view user db) := by
  refine ⟨?_, ?_, ?_⟩
  · intro user db l1 l2 s0 hsplit hs
    have hp : (s0.school == user.school) = false := beq_eq_false_iff_ne.mpr hs
    have hfil : ({ db with students := l1 ++ s0 :: l2 } : Db).students.filter
        (fun s => s.school == user.school)
        = db.students.filter (fun s => s.school == user.school) := by
      show (l1 ++ s0 :: l2).filter (fun s => s.school == user.school)
        = db.students.filter (fun s => s.school == user.school)
      rw [hsplit]
      exact filter_middle_of_neg _ _ _ _ hp
    constructor
    · unfold students_index
      rw [hfil]
      rfl
    · simp only [grade_view]
      rw [hfil]
      rfl
  · intro user db l1 l2 gw0 hsplit hgw
    have hp : (gradedWorkSchool db gw0 == some user.school) = false :=
      beq_eq_false_iff_ne.mpr hgw
    have hgwf : ∀ s : Student,
        gradedWorkFor user { db with gradedWorks := l1 ++ gw0 :: l2 } s
        = gradedWorkFor user db s := by
      intro s
      show (l1 ++ gw0 :: l2).filter _ = db.gradedWorks.filter _
      rw [hsplit]
      apply filter_middle_of_neg
      show (gradedWorkSchool db gw0 == some user.school
        && db.courseworks.any (fun cw =>
            cw.student == s.id && cw.course_task == gw0.course_task)
        && !(db.grades.any (fun g =>
            g.student == s.id && g.graded_work == gw0.id))) = false
      simp [hp]
    constructor
    · rfl
    · simp only [grade_view, hgwf]
  · intro user db l1 l2 cw0 hsplit hnd hcw
    have hgwf : ∀ s : Student, s ∈ db.students →
        (s.school == user.school) = true →
        gradedWorkFor user { db with courseworks := l1 ++ cw0 :: l2 } s
        = gradedWorkFor user db s := by
      intro s hmem hsch
      have hcs : (cw0.student == s.id) = false := by
        rw [beq_eq_false_iff_ne]
        intro he
        apply hcw
        unfold courseworkSchool
        rw [he, find_self_of_nodup_ids db.students s hnd hmem]
        show some s.school = some user.school
        exact congrArg some (beq_iff_eq.mp hsch)
      unfold gradedWorkFor
      apply List.filter_congr
      intro gw hgwmem
      show (gradedWorkSchool db gw == some user.school
          && (l1 ++ cw0 :: l2).any (fun cw =>
              cw.student == s.id && cw.course_task == gw.course_task)
          && !(db.grades.any (fun g =>
              g.student == s.id && g.graded_work == gw.id)))
        = (gradedWorkSchool db gw == some user.school
          && db.courseworks.any (fun cw =>
              cw.student == s.id && cw.course_task == gw.course_task)
          && !(db.grades.any (fun g =>
              g.student == s.id && g.graded_work == gw.id)))
      rw [hsplit]
      rw [any_middle_of_neg _ l1 l2 cw0 (by simp [hcs])]
    constructor
    · rfl
    · simp only [grade_view]
      have he : (({ db with courseworks := l1 ++ cw0 :: l2 } : Db).students.filter
          (fun s => s.school == user.school)).map
            (fun s => (⟨s, gradedWorkFor user
              { db with courseworks := l1 ++ cw0 :: l2 } s⟩ : WorkToGradeEntry))
          = (db.students.filter (fun s => s.school == user.school)).map
            (fun s => ⟨s, gradedWorkFor user db s⟩) := by
        have hsame : ({ db with courseworks := l1 ++ cw0 :: l2 } : Db).students.filter
            (fun s => s.school == user.school)
            = db.students.filter (fun s => s.school == user.school) := rfl
        rw [hsame]
        apply List.map_congr_left
        intro s hsmem
        rw [List.mem_filter] at hsmem
        rw [hgwf s hsmem.1 hsmem.2]
      rw [he]

/-- Witness for C1: inserting a student of school 2 into the middle of the
roster store, cross-school graded work, and coursework owned through a
school-2 student each leave both rendered contexts unchanged. -/
theorem claim1_witness :
    (students_index user1 { db5 with students :=
        [⟨1, "Alice", "Ames", 1⟩, ⟨20, "Eve", "Ems", 2⟩, ⟨10, "Jane", "Doe", 2⟩] }
      = students_index user1 db5 ∧
     grade_view user1 { db5 with students :=
        [⟨1, "Alice", "Ames", 1⟩, ⟨20, "Eve", "Ems", 2⟩, ⟨10, "Jane", "Doe", 2⟩] }
      = grade_view user1 db5) ∧
    (students_index user1 { dbFix with gradedWorks := [⟨40, 30⟩] }
      = students_index user1 dbFix ∧
     grade_view user1 { dbFix with gradedWorks := [⟨40, 30⟩] }
      = grade_view user1 dbFix) ∧
    (students_index user1 { dbFix with courseworks := [⟨50, 20200210, 30, 10⟩] }
      = students_index user1 dbFix ∧
     grade_view user1 { dbFix with courseworks := [⟨50, 20200210, 30, 10⟩] }
      = grade_view user1 dbFix) := by
  obtain ⟨h1, h2, h3⟩ := claim1_tenant_isolation_noninterference
  exact ⟨h1 user1 db5 [⟨1, "Alice", "Ames", 1⟩] [⟨10, "Jane", "Doe", 2⟩]
           ⟨20, "Eve", "Ems", 2⟩ rfl (by decide),
         h2 user1 dbFix [] [] ⟨40, 30⟩ rfl (by decide),
         h3 user1 dbFix [] [] ⟨50, 20200210, 30, 10⟩ rfl (by decide) (by decide)⟩

end Homeschool
